import Mathlib

/-!
Shallow embedding of the TestGuard exam-attempt / device-session concurrency
core (src/exams/models.py and src/core/models.py).

Time is modelled as integer seconds (`Int`); UUIDs as `Nat` tokens supplied by
the caller (a fresh-token supply); Django model rows as structures; the
`ActiveExamSession` table as a `List`; persistence of an `ExamAttempt`
(`save()`) as the composition of the `pre_save` signal
(`validate_single_device_access`, which calls `clean`) and the `post_save`
signal (`manage_active_sessions`), returning `Except SaveError` since `clean`
can raise a `ValidationError`.
-/

namespace TestGuard

/-- Status enum of `ExamAttempt` (src/exams/models.py, class `Status`). -/
inductive AttemptStatus where
  | NOT_STARTED
  | PASSWORD_REQUIRED
  | IN_PROGRESS
  | SUBMITTED
  | AUTO_SUBMITTED
  | TERMINATED
deriving DecidableEq, Repr

/-- A `UserDeviceSession` row, reduced to the fields the concurrency core
reads: its identity and its `device_hash`. -/
structure DeviceSession where
  id : Nat
  device_hash : String
deriving DecidableEq, Repr

/-- Python whitespace characters recognised by `str.strip()` (ASCII subset:
space, tab, newline, carriage return, vertical tab, form feed). -/
def pyIsSpace (c : Char) : Bool :=
  c = ' ' || c = '\t' || c = '\n' || c = '\r' || c = Char.ofNat 11 || c = Char.ofNat 12

/-- Python `str.strip()` on a list of characters: drop leading and trailing
whitespace. -/
def pyStrip (s : List Char) : List Char :=
  ((s.dropWhile pyIsSpace).reverse.dropWhile pyIsSpace).reverse

/-- An `Exam` row, reduced to the fields the attempt state machine reads:
`duration` (minutes) and `exam_password` (blank-able plaintext gate). -/
structure Exam where
  id : Nat
  duration : Nat
  exam_password : String
deriving DecidableEq, Repr

/-- `Exam.requires_password` (src/exams/models.py:476-484):
`bool(self.exam_password.strip())`. -/
def Exam.requires_password (e : Exam) : Bool :=
  !(pyStrip e.exam_password.data).isEmpty

/-- `Exam.validate_password` (src/exams/models.py:486-498): true when no
password is required, otherwise plaintext equality with the attempt.  A
`none` attempt compares unequal to any stored password (Python
`str == None` is `False`). -/
def Exam.validate_password (e : Exam) (password_attempt : Option String) : Bool :=
  if !e.requires_password then true
  else match password_attempt with
    | some p => e.exam_password = p
    | none => false

/-- Python truthiness test `not password_attempt` on an optional string:
true for `None` and for the empty string. -/
def pyFalsy (password_attempt : Option String) : Bool :=
  match password_attempt with
  | none => true
  | some p => p.data.isEmpty

/-- An `ExamAttempt` row (src/exams/models.py:563-801), reduced to the
fields the concurrency core reads and writes.  The exam configuration is
embedded by value (read-only during an attempt). -/
structure ExamAttempt where
  id : Nat
  exam : Exam
  student : Nat
  start_time : Option Int
  end_time : Option Int
  status : AttemptStatus
  device_session : Option DeviceSession
  session_token : Option Nat
  termination_reason : String
  last_auto_save : Option Int
  auto_save_count : Nat
  password_attempts : Nat
  last_password_attempt : Option Int
deriving DecidableEq, Repr

/-- An `ActiveExamSession` row (src/exams/models.py:1044-1131): the derived
registry keyed by (user, exam) that the `ExamAttempt` signal handlers
reconcile. -/
structure ActiveExamSession where
  user : Nat
  exam_id : Nat
  attempt_id : Nat
  device_session : DeviceSession
  session_token : Nat
  started_at : Int
  last_activity : Int
  is_active : Bool
deriving DecidableEq, Repr

/-- Errors surfaced by saving an `ExamAttempt`.  `concurrencyViolation t`
models the `ValidationError` raised by `ExamAttempt.clean`
(src/exams/models.py:686-689), whose message names the conflicting
session's `started_at` time `t`. -/
inductive SaveError where
  | concurrencyViolation (started_at : Int)
deriving DecidableEq, Repr

/-- Does a session row conflict with the attempt identified by
`(student, examId, attemptId)` in the sense of `ExamAttempt.clean`'s query:
same (user, exam), active, and bound to a different attempt
(`.exclude(attempt=self)`). -/
def conflictsWith (student examId attemptId : Nat) (s : ActiveExamSession) : Bool :=
  s.user = student && s.exam_id = examId && s.is_active && s.attempt_id ≠ attemptId

/-- `ExamAttempt.clean` (src/exams/models.py:674-689): when the attempt is
IN_PROGRESS and has a device session, raise if another active session
exists for the same (student, exam); the error names the conflicting
session's start time. -/
def ExamAttempt.clean (a : ExamAttempt) (sessions : List ActiveExamSession) :
    Except SaveError Unit :=
  if a.status = .IN_PROGRESS && a.device_session.isSome then
    match (sessions.filter (conflictsWith a.student a.exam.id a.id)).head? with
    | some other => .error (.concurrencyViolation other.started_at)
    | none => .ok ()
  else .ok ()

/-- The `pre_save` signal `validate_single_device_access`
(src/exams/models.py:1135-1142): run `clean` whenever the attempt being
saved is IN_PROGRESS. -/
def validate_single_device_access (a : ExamAttempt)
    (sessions : List ActiveExamSession) : Except SaveError Unit :=
  if a.status = .IN_PROGRESS then a.clean sessions else .ok ()

/-- The `post_save` signal `manage_active_sessions`
(src/exams/models.py:1145-1169): upsert the (user, exam)-keyed
`ActiveExamSession` row when the saved attempt is IN_PROGRESS with a
device session; deactivate the (user, exam) rows when the saved status is
SUBMITTED or TERMINATED; do nothing otherwise.  `freshTok` stands for the
`uuid.uuid4()` fallback used when the attempt has no session token;
`now` stands for `timezone.now()`. -/
def manage_active_sessions (now : Int) (freshTok : Nat) (a : ExamAttempt)
    (sessions : List ActiveExamSession) : List ActiveExamSession :=
  match a.status, a.device_session with
  | .IN_PROGRESS, some d =>
      let tok := a.session_token.getD freshTok
      if sessions.any (fun s => s.user = a.student && s.exam_id = a.exam.id) then
        sessions.map (fun s =>
          if s.user = a.student && s.exam_id = a.exam.id then
            { s with device_session := d, attempt_id := a.id,
                     session_token := tok, is_active := true,
                     last_activity := now }
          else s)
      else
        sessions ++ [{ user := a.student, exam_id := a.exam.id,
                       attempt_id := a.id, device_session := d,
                       session_token := tok, started_at := now,
                       last_activity := now, is_active := true }]
  | st, _ =>
      if st = .SUBMITTED || st = .TERMINATED then
        sessions.map (fun s =>
          if s.user = a.student && s.exam_id = a.exam.id then
            { s with is_active := false }
          else s)
      else sessions

/-- Saving an `ExamAttempt`: the `pre_save` signal runs first and may raise;
on success the `post_save` signal reconciles the `ActiveExamSession` table
and the new table is returned. -/
def saveAttempt (now : Int) (freshTok : Nat) (a : ExamAttempt)
    (sessions : List ActiveExamSession) :
    Except SaveError (List ActiveExamSession) := do
  validate_single_device_access a sessions
  pure (manage_active_sessions now freshTok a sessions)

/-- Result of `start_exam`: the saved attempt, the reconciled session table,
and the `(success, message)` pair the method returns. -/
structure StartResult where
  attempt : ExamAttempt
  sessions : List ActiveExamSession
  success : Bool
  message : String
deriving DecidableEq, Repr

/-- `ExamAttempt.start_exam` (src/exams/models.py:691-720).  `now` stands for
`timezone.now()`, `freshTok` for the `uuid.uuid4()` minted on success. -/
def ExamAttempt.start_exam (now : Int) (freshTok : Nat) (a : ExamAttempt)
    (device_session : DeviceSession) (password_attempt : Option String)
    (sessions : List ActiveExamSession) : Except SaveError StartResult :=
  if a.exam.requires_password && pyFalsy password_attempt then
    let a' := { a with status := .PASSWORD_REQUIRED }
    (saveAttempt now freshTok a' sessions).map fun ss =>
      ⟨a', ss, false, "Password required to start exam"⟩
  else if a.exam.requires_password && !a.exam.validate_password password_attempt then
    let a' := { a with password_attempts := a.password_attempts + 1,
                       last_password_attempt := some now }
    (saveAttempt now freshTok a' sessions).map fun ss =>
      ⟨a', ss, false, "Incorrect exam password"⟩
  else
    let a' := { a with status := .IN_PROGRESS, start_time := some now,
                       device_session := some device_session,
                       session_token := some freshTok }
    (saveAttempt now freshTok a' sessions).map fun ss =>
      ⟨a', ss, true, "Exam started successfully"⟩

/-- `ExamAttempt.terminate_session` (src/exams/models.py:722-739): set the
terminal fields, save (which itself deactivates the sessions through the
`post_save` signal), then additionally deactivate any still-active
(user, exam) session rows via a direct queryset update. -/
def ExamAttempt.terminate_session (now : Int) (freshTok : Nat)
    (a : ExamAttempt) (reason : String) (sessions : List ActiveExamSession) :
    Except SaveError (ExamAttempt × List ActiveExamSession) :=
  let a' := { a with status := .TERMINATED, termination_reason := reason,
                     end_time := some now }
  (saveAttempt now freshTok a' sessions).map fun ss =>
    (a', ss.map (fun s =>
      if s.user = a.student && s.exam_id = a.exam.id && s.is_active then
        { s with is_active := false }
      else s))

/-- `ExamAttempt.time_remaining` (src/exams/models.py:769-781): remaining
seconds while IN_PROGRESS with a start time, else 0. -/
def ExamAttempt.time_remaining (now : Int) (a : ExamAttempt) : Int :=
  match a.status, a.start_time with
  | .IN_PROGRESS, some st =>
      max 0 ((a.exam.duration : Int) * 60 - (now - st))
  | _, _ => 0

/-- `ExamAttempt.is_completed` (src/exams/models.py:794-801). -/
def ExamAttempt.is_completed (a : ExamAttempt) : Bool :=
  a.status = .SUBMITTED || a.status = .AUTO_SUBMITTED || a.status = .TERMINATED

/-- A `QuestionResponse` row (src/exams/models.py:804-904), reduced to the
fields `save_draft` and `finalize_answer` read and write.  Answer payloads
(JSON in the source) are modelled as strings. -/
structure QuestionResponse where
  attempt_id : Nat
  question_id : Nat
  student_answer : Option String
  draft_answer : Option String
  auto_save_count : Nat
  last_auto_save : Option Int
  is_submitted : Bool
deriving DecidableEq, Repr

/-- `QuestionResponse.save_draft` (src/exams/models.py:868-880): overwrite
the draft, bump the auto-save counter, stamp `last_auto_save`. -/
def QuestionResponse.save_draft (now : Int) (r : QuestionResponse)
    (answer_data : String) : QuestionResponse :=
  { r with draft_answer := some answer_data,
           auto_save_count := r.auto_save_count + 1,
           last_auto_save := some now }

/-- `QuestionResponse.finalize_answer` (src/exams/models.py:882-894):
overwrite the final answer, clear the draft, mark submitted — with no
guard against an already-submitted response. -/
def QuestionResponse.finalize_answer (r : QuestionResponse)
    (answer_data : String) : QuestionResponse :=
  { r with student_answer := some answer_data,
           draft_answer := none,
           is_submitted := true }

namespace Core

/-- The `core.models.ActiveExamSession` row (src/core/models.py:612-712),
reduced to the fields `is_valid` reads. -/
structure ActiveExamSession where
  device_session : DeviceSession
  last_activity : Int
  is_active : Bool
deriving DecidableEq, Repr

/-- `ActiveExamSession.is_valid` (src/core/models.py:675-687): active, same
device hash, and less than 300 seconds since the last activity. -/
def ActiveExamSession.is_valid (now : Int) (s : ActiveExamSession)
    (current_device_hash : String) : Bool :=
  s.is_active && s.device_session.device_hash = current_device_hash &&
    (now - s.last_activity) < 300

end Core

/-! ### Concrete fixtures used by witnesses and counterexamples -/

/-- A sample device session ("device A"). -/
def devA : DeviceSession := ⟨1, "hashA"⟩

/-- A sample device session ("device B"). -/
def devB : DeviceSession := ⟨2, "hashB"⟩

/-- A sample exam with no password and a 60-minute duration. -/
def examNoPw : Exam := ⟨3, 60, ""⟩

/-- A sample exam protected by the password "pw". -/
def examPw : Exam := ⟨4, 60, String.mk ['p', 'w']⟩

/-- A sample exam whose password field holds only whitespace. -/
def examBlankPw : Exam := ⟨5, 60, String.mk [' ', '\t', ' ']⟩

/-- A fresh attempt (student 7) at the password-free exam. -/
def attemptFresh : ExamAttempt :=
  { id := 1, exam := examNoPw, student := 7, start_time := none,
    end_time := none, status := .NOT_STARTED, device_session := none,
    session_token := none, termination_reason := "", last_auto_save := none,
    auto_save_count := 0, password_attempts := 0, last_password_attempt := none }

/-- A fresh attempt (student 7) at the password-protected exam. -/
def attemptFreshPw : ExamAttempt :=
  { attemptFresh with id := 2, exam := examPw }

/-- An active session row for (student 7, exam 3) bound to attempt 1 on
device A, started at time 0. -/
def sessionA : ActiveExamSession :=
  { user := 7, exam_id := 3, attempt_id := 1, device_session := devA,
    session_token := 11, started_at := 0, last_activity := 0, is_active := true }

/-- A second attempt (same student 7, same exam 3, id 2) trying to go
IN_PROGRESS from device B while `sessionA` (bound to attempt 1) is active. -/
def attemptOnDeviceB : ExamAttempt :=
  { attemptFresh with
    id := 2,
    status := .IN_PROGRESS,
    device_session := some devB }

/-- An already-terminated attempt: status TERMINATED, ended at time 0. -/
def attemptTerminated : ExamAttempt :=
  { attemptFresh with
    status := .TERMINATED,
    termination_reason := "policy violation",
    end_time := some 0 }

/-- The result of calling `start_exam` on `attemptFreshPw` with no password:
the PASSWORD_REQUIRED failure. -/
def resPwRequired : StartResult :=
  ⟨{ attemptFreshPw with status := .PASSWORD_REQUIRED }, [], false,
   "Password required to start exam"⟩

/-! ### Helper lemmas -/

/-- Filtering with a predicate that holds nowhere yields the empty list. -/
theorem filter_eq_nil_of_forall_false {α : Type} (p : α → Bool) (l : List α)
    (h : ∀ x ∈ l, p x = false) : l.filter p = [] := by
  induction l with
  | nil => rfl
  | cons a t ih =>
      have ha := h a (by simp)
      have ht : t.filter p = [] := ih fun x hx => h x (by simp [hx])
      simp [List.filter_cons, ha, ht]

/-- A list all of whose characters are Python whitespace strips to empty. -/
theorem pyStrip_eq_nil_of_all_space (l : List Char)
    (h : ∀ c ∈ l, pyIsSpace c = true) : pyStrip l = [] := by
  unfold pyStrip
  have h1 : l.dropWhile pyIsSpace = [] := List.dropWhile_eq_nil_iff.mpr h
  simp [h1]

/-- Saving an attempt for which no conflicting active session exists never
raises and returns the reconciled table. -/
theorem saveAttempt_ok_of_no_conflict (now : Int) (tok : Nat)
    (a : ExamAttempt) (sessions : List ActiveExamSession)
    (h : ∀ s ∈ sessions, conflictsWith a.student a.exam.id a.id s = false) :
    saveAttempt now tok a sessions =
      .ok (manage_active_sessions now tok a sessions) := by
  have hf : sessions.filter (conflictsWith a.student a.exam.id a.id) = [] :=
    filter_eq_nil_of_forall_false _ _ h
  unfold saveAttempt validate_single_device_access ExamAttempt.clean
  by_cases hst : a.status = .IN_PROGRESS
  · cases hdev : a.device_session <;>
      simp [hst, hf, hdev, Bind.bind, Except.bind, pure, Except.pure]
  · simp [hst, Bind.bind, Except.bind, pure, Except.pure]

/-- An exam that requires a password has a nonempty password string. -/
theorem exam_password_not_empty_of_requires (e : Exam)
    (h : e.requires_password = true) : e.exam_password.data.isEmpty = false := by
  cases hd : e.exam_password.data with
  | nil =>
      exfalso
      unfold Exam.requires_password at h
      rw [hd] at h
      simp [pyStrip] at h
  | cons c t => simp

/-- Validating the stored password itself succeeds. -/
theorem validate_password_self (e : Exam) :
    e.validate_password (some e.exam_password) = true := by
  unfold Exam.validate_password
  by_cases h : e.requires_password <;> simp [h]

/-! ### Claim theorems -/

/-- C5: `ActiveExamSession.is_valid(current_device_hash)` returns true iff the
session is active, the bound device session's hash equals the caller's
current device hash, and strictly less than 300 seconds (the 5-minute
window) have elapsed since `last_activity`. -/
theorem C5_is_valid_iff (now : Int) (s : Core.ActiveExamSession)
    (current_device_hash : String) :
    s.is_valid now current_device_hash = true ↔
      s.is_active = true ∧
      s.device_session.device_hash = current_device_hash ∧
      now - s.last_activity < 300 := by
  simp [Core.ActiveExamSession.is_valid, and_assoc]

/-- C6: while the attempt is IN_PROGRESS with a start time, `time_remaining`
equals `max 0 (exam.duration*60 - elapsed_seconds)`; in every other status it
is 0; and an IN_PROGRESS attempt whose elapsed time exceeds the exam
duration has `time_remaining = 0`. -/
theorem C6_time_remaining_spec (now st : Int) (a : ExamAttempt) :
    (a.status = .IN_PROGRESS → a.start_time = some st →
      a.time_remaining now = max 0 ((a.exam.duration : Int) * 60 - (now - st)))
    ∧ (a.status ≠ .IN_PROGRESS → a.time_remaining now = 0)
    ∧ (a.status = .IN_PROGRESS → a.start_time = some st →
        (a.exam.duration : Int) * 60 < now - st → a.time_remaining now = 0) := by
  refine ⟨fun hst hstart => ?_, fun hst => ?_, fun hst hstart hlt => ?_⟩
  · simp [ExamAttempt.time_remaining, hst, hstart]
  · unfold ExamAttempt.time_remaining
    cases h : a.status <;> cases a.start_time <;> simp_all
  · simp [ExamAttempt.time_remaining, hst, hstart]
    omega

/-- Witness for C6: a 60-minute exam started 61 minutes ago (elapsed 3660
seconds) has no time remaining. -/
theorem C6_time_remaining_spec_witness :
    ExamAttempt.time_remaining 3660
      { attemptFresh with status := .IN_PROGRESS, start_time := some 0 } = 0 :=
  (C6_time_remaining_spec 3660 0
      { attemptFresh with status := .IN_PROGRESS, start_time := some 0 }).2.2
    rfl rfl (by decide)

/-- C7: `save_draft X` stores X in `draft_answer`, increments
`auto_save_count`, and leaves `student_answer` and `is_submitted` untouched;
`finalize_answer Y` stores Y in `student_answer`, clears `draft_answer`, and
sets `is_submitted`; and `finalize_answer` is accepted again on an
already-submitted response, silently overwriting `student_answer`. -/
theorem C7_response_round_trip (now : Int) (r : QuestionResponse)
    (x y z : String) :
    ((r.save_draft now x).draft_answer = some x
      ∧ (r.save_draft now x).auto_save_count = r.auto_save_count + 1
      ∧ (r.save_draft now x).student_answer = r.student_answer
      ∧ (r.save_draft now x).is_submitted = r.is_submitted)
    ∧ ((r.finalize_answer y).student_answer = some y
      ∧ (r.finalize_answer y).draft_answer = none
      ∧ (r.finalize_answer y).is_submitted = true)
    ∧ (((r.finalize_answer y).finalize_answer z).student_answer = some z
      ∧ ((r.finalize_answer y).finalize_answer z).is_submitted = true) := by
  simp [QuestionResponse.save_draft, QuestionResponse.finalize_answer]

/-- C9: saving an attempt whose `device_session` is None with
status=IN_PROGRESS never raises a concurrency violation and creates no
`ActiveExamSession` row — the table is returned unchanged — even when
another active session already exists for the same (student, exam) pair
(the `sessions` table is arbitrary). -/
theorem C9_no_device_save_is_silent (now : Int) (tok : Nat) (a : ExamAttempt)
    (sessions : List ActiveExamSession) (hdev : a.device_session = none)
    (hst : a.status = .IN_PROGRESS) :
    saveAttempt now tok a sessions = .ok sessions := by
  unfold saveAttempt validate_single_device_access ExamAttempt.clean
    manage_active_sessions
  simp [hst, hdev, Bind.bind, Except.bind, pure, Except.pure]

/-- Witness for C9: attempt 2 of student 7 saved IN_PROGRESS with no device
session while `sessionA` (same student, same exam, bound to attempt 1) is
active: no error, table unchanged. -/
theorem C9_no_device_save_is_silent_witness :
    saveAttempt 100 5 { attemptFresh with id := 2, status := .IN_PROGRESS }
      [sessionA] = .ok [sessionA] :=
  C9_no_device_save_is_silent 100 5
    { attemptFresh with id := 2, status := .IN_PROGRESS } [sessionA] rfl rfl

/-- C10: an exam whose `exam_password` is empty or whitespace-only has
`requires_password = false`, `validate_password` returns true for every
attempt (including None), and `start_exam` on such an exam never enters the
password-gating branches: it always takes the success branch verbatim. -/
theorem C10_blank_password_never_gates (e : Exam)
    (h : ∀ c ∈ e.exam_password.data, pyIsSpace c = true) :
    e.requires_password = false
    ∧ (∀ pw : Option String, e.validate_password pw = true)
    ∧ (∀ (now : Int) (tok : Nat) (a : ExamAttempt) (dev : DeviceSession)
         (pw : Option String) (sessions : List ActiveExamSession),
        a.exam = e →
        a.start_exam now tok dev pw sessions =
          (saveAttempt now tok
              { a with
                status := .IN_PROGRESS,
                start_time := some now,
                device_session := some dev,
                session_token := some tok } sessions).map
            (fun ss =>
              ⟨{ a with
                 status := .IN_PROGRESS,
                 start_time := some now,
                 device_session := some dev,
                 session_token := some tok }, ss, true,
               "Exam started successfully"⟩)) := by
  have hreq : e.requires_password = false := by
    unfold Exam.requires_password
    rw [pyStrip_eq_nil_of_all_space _ h]
    rfl
  refine ⟨hreq, fun pw => ?_, fun now tok a dev pw sessions ha => ?_⟩
  · unfold Exam.validate_password
    rw [hreq]
    rfl
  · unfold ExamAttempt.start_exam
    rw [ha, hreq]
    simp

/-- Witness for C10: the exam whose password field is `" \t "` does not
require a password and accepts a None password attempt. -/
theorem C10_blank_password_never_gates_witness :
    examBlankPw.requires_password = false
    ∧ examBlankPw.validate_password none = true :=
  ⟨(C10_blank_password_never_gates examBlankPw (by decide)).1,
   (C10_blank_password_never_gates examBlankPw (by decide)).2.1 none⟩

/-- C8: on both failing paths of `start_exam` (password required but
missing, and password incorrect) the returned attempt's `start_time`,
`end_time`, `device_session`, and `session_token` are unchanged; on the
missing-password path `password_attempts` is also unchanged. -/
theorem C8_failing_paths_do_not_mutate_timers (now : Int) (tok : Nat)
    (a : ExamAttempt) (dev : DeviceSession) (pw : Option String)
    (sessions : List ActiveExamSession)
    (hreq : a.exam.requires_password = true) :
    (pyFalsy pw = true →
      ∀ res, a.start_exam now tok dev pw sessions = .ok res →
        res.attempt.start_time = a.start_time
        ∧ res.attempt.end_time = a.end_time
        ∧ res.attempt.device_session = a.device_session
        ∧ res.attempt.session_token = a.session_token
        ∧ res.attempt.password_attempts = a.password_attempts)
    ∧ (pyFalsy pw = false → a.exam.validate_password pw = false →
      ∀ res, a.start_exam now tok dev pw sessions = .ok res →
        res.attempt.start_time = a.start_time
        ∧ res.attempt.end_time = a.end_time
        ∧ res.attempt.device_session = a.device_session
        ∧ res.attempt.session_token = a.session_token) := by
  constructor
  · intro hpf res hres
    unfold ExamAttempt.start_exam at hres
    rw [hreq, hpf] at hres
    simp only [Bool.true_and, if_true] at hres
    cases hsv : saveAttempt now tok { a with status := .PASSWORD_REQUIRED }
        sessions with
    | error e => rw [hsv] at hres; simp [Except.map] at hres
    | ok ss =>
        rw [hsv] at hres
        simp only [Except.map, Except.ok.injEq] at hres
        rw [← hres]
        exact ⟨rfl, rfl, rfl, rfl, rfl⟩
  · intro hpf hval res hres
    have hstep : a.start_exam now tok dev pw sessions =
        (saveAttempt now tok
          { a with
            password_attempts := a.password_attempts + 1,
            last_password_attempt := some now } sessions).map
          (fun ss =>
            ⟨{ a with
               password_attempts := a.password_attempts + 1,
               last_password_attempt := some now }, ss, false,
             "Incorrect exam password"⟩) := by
      unfold ExamAttempt.start_exam
      rw [hreq, hpf, hval]
      simp
    rw [hstep] at hres
    cases hsv : saveAttempt now tok
        { a with
          password_attempts := a.password_attempts + 1,
          last_password_attempt := some now } sessions with
    | error e => rw [hsv] at hres; simp [Except.map] at hres
    | ok ss =>
        rw [hsv] at hres
        simp only [Except.map, Except.ok.injEq] at hres
        rw [← hres]
        exact ⟨rfl, rfl, rfl, rfl⟩

/-- Witness for C8: calling `start_exam` on the password-protected exam with
no password returns the PASSWORD_REQUIRED failure with timers, session
binding, and password counter untouched. -/
theorem C8_failing_paths_do_not_mutate_timers_witness :
    resPwRequired.attempt.start_time = attemptFreshPw.start_time
    ∧ resPwRequired.attempt.end_time = attemptFreshPw.end_time
    ∧ resPwRequired.attempt.device_session = attemptFreshPw.device_session
    ∧ resPwRequired.attempt.session_token = attemptFreshPw.session_token
    ∧ resPwRequired.attempt.password_attempts
        = attemptFreshPw.password_attempts :=
  (C8_failing_paths_do_not_mutate_timers 50 42 attemptFreshPw devA none []
      (by decide)).1 rfl resPwRequired rfl

/-- C4: the three-way contract of `start_exam` (for an attempt with no
conflicting active session): with a password required and none supplied,
status becomes PASSWORD_REQUIRED and the call fails; with a wrong password,
`password_attempts` is incremented, `last_password_attempt` is stamped, and
the call fails with status unchanged; with the correct password, or on an
exam requiring no password, status becomes IN_PROGRESS, `start_time := now`,
the device session is bound, a fresh session token is minted, and the call
succeeds. -/
theorem C4_start_exam_contract (now : Int) (tok : Nat) (a : ExamAttempt)
    (dev : DeviceSession) (sessions : List ActiveExamSession)
    (hnc : ∀ s ∈ sessions, conflictsWith a.student a.exam.id a.id s = false) :
    (a.exam.requires_password = true →
      a.start_exam now tok dev none sessions =
        .ok ⟨{ a with status := .PASSWORD_REQUIRED },
             manage_active_sessions now tok
               { a with status := .PASSWORD_REQUIRED } sessions,
             false, "Password required to start exam"⟩)
    ∧ (∀ pw : String, a.exam.requires_password = true →
        pw.data.isEmpty = false →
        a.exam.validate_password (some pw) = false →
        a.start_exam now tok dev (some pw) sessions =
          .ok ⟨{ a with
                 password_attempts := a.password_attempts + 1,
                 last_password_attempt := some now },
               manage_active_sessions now tok
                 { a with
                   password_attempts := a.password_attempts + 1,
                   last_password_attempt := some now } sessions,
               false, "Incorrect exam password"⟩)
    ∧ (∀ pw : Option String,
        a.exam.requires_password = false ∨ pw = some a.exam.exam_password →
        a.start_exam now tok dev pw sessions =
          .ok ⟨{ a with
                 status := .IN_PROGRESS,
                 start_time := some now,
                 device_session := some dev,
                 session_token := some tok },
               manage_active_sessions now tok
                 { a with
                   status := .IN_PROGRESS,
                   start_time := some now,
                   device_session := some dev,
                   session_token := some tok } sessions,
               true, "Exam started successfully"⟩) := by
  refine ⟨fun h1 => ?_, fun pw h1 hpe hval => ?_, fun pw hok => ?_⟩
  · have hstep : a.start_exam now tok dev none sessions =
        (saveAttempt now tok { a with status := .PASSWORD_REQUIRED }
            sessions).map
          (fun ss => ⟨{ a with status := .PASSWORD_REQUIRED }, ss, false,
            "Password required to start exam"⟩) := by
      unfold ExamAttempt.start_exam
      rw [h1]
      simp [pyFalsy]
    rw [hstep,
      saveAttempt_ok_of_no_conflict now tok
        { a with status := .PASSWORD_REQUIRED } sessions
        (fun s hs => hnc s hs)]
    rfl
  · have hstep : a.start_exam now tok dev (some pw) sessions =
        (saveAttempt now tok
            { a with
              password_attempts := a.password_attempts + 1,
              last_password_attempt := some now } sessions).map
          (fun ss =>
            ⟨{ a with
               password_attempts := a.password_attempts + 1,
               last_password_attempt := some now }, ss, false,
             "Incorrect exam password"⟩) := by
      unfold ExamAttempt.start_exam
      rw [h1, hval]
      simp [pyFalsy, hpe]
    rw [hstep,
      saveAttempt_ok_of_no_conflict now tok
        { a with
          password_attempts := a.password_attempts + 1,
          last_password_attempt := some now } sessions
        (fun s hs => hnc s hs)]
    rfl
  · have hgate1 : (a.exam.requires_password && pyFalsy pw) = false := by
      rcases hok with hreqf | hpw
      · rw [hreqf]; rfl
      · subst hpw
        by_cases hr : a.exam.requires_password = true
        · simp [pyFalsy, exam_password_not_empty_of_requires a.exam hr]
        · simp [Bool.not_eq_true] at hr
          rw [hr]; rfl
    have hgate2 : (a.exam.requires_password
        && !a.exam.validate_password pw) = false := by
      rcases hok with hreqf | hpw
      · rw [hreqf]; rfl
      · subst hpw
        simp [validate_password_self]
    have hstep : a.start_exam now tok dev pw sessions =
        (saveAttempt now tok
            { a with
              status := .IN_PROGRESS,
              start_time := some now,
              device_session := some dev,
              session_token := some tok } sessions).map
          (fun ss =>
            ⟨{ a with
               status := .IN_PROGRESS,
               start_time := some now,
               device_session := some dev,
               session_token := some tok }, ss, true,
             "Exam started successfully"⟩) := by
      unfold ExamAttempt.start_exam
      rw [hgate1, hgate2]
      simp
    rw [hstep,
      saveAttempt_ok_of_no_conflict now tok
        { a with
          status := .IN_PROGRESS,
          start_time := some now,
          device_session := some dev,
          session_token := some tok } sessions
        (fun s hs => hnc s hs)]
    rfl

/-- Witness for C4: entering the correct password "pw" on the protected exam
starts it: status IN_PROGRESS, `start_time = 50`, device A bound, session
token 42 minted, success returned, and the active session row created. -/
theorem C4_start_exam_contract_witness :
    ExamAttempt.start_exam 50 42 attemptFreshPw devA
      (some (String.mk ['p', 'w'])) [] =
      .ok ⟨{ attemptFreshPw with
             status := .IN_PROGRESS,
             start_time := some 50,
             device_session := some devA,
             session_token := some 42 },
           [{ user := 7, exam_id := 4, attempt_id := 2, device_session := devA,
              session_token := 42, started_at := 50, last_activity := 50,
              is_active := true }], true, "Exam started successfully"⟩ := by
  have h := (C4_start_exam_contract 50 42 attemptFreshPw devA []
      (by simp)).2.2 (some (String.mk ['p', 'w'])) (Or.inr rfl)
  exact h

/-- C1 (failing-input evaluation): saving an attempt with the terminal
status AUTO_SUBMITTED while an active `ActiveExamSession` row for the same
(student, exam) exists leaves that row active — the `post_save` handler only
deactivates on SUBMITTED and TERMINATED, so the claimed deactivation on
every terminal status does not happen, and afterwards the attempt is not
IN_PROGRESS while an active session row still points at it. -/
theorem C1_auto_submitted_leaves_session_active :
    ExamAttempt.is_completed { attemptFresh with status := .AUTO_SUBMITTED }
        = true
    ∧ sessionA.user = attemptFresh.student
    ∧ sessionA.exam_id = attemptFresh.exam.id
    ∧ sessionA.is_active = true
    ∧ saveAttempt 100 5 { attemptFresh with status := .AUTO_SUBMITTED }
        [sessionA] = .ok [sessionA] :=
  ⟨rfl, rfl, rfl, rfl, rfl⟩

/-- C2 counterexample: the claim as stated fails when the attempt has no
`device_session`: attempt 2 of student 7 is saved with status IN_PROGRESS
while `sessionA` (active, same student and exam, bound to attempt 1) exists,
yet the save is accepted (returns ok, no concurrency error). -/
theorem C2_counterexample_no_device_write_accepted :
    ({ attemptFresh with id := 2, status := .IN_PROGRESS }
        : ExamAttempt).status = .IN_PROGRESS
    ∧ ({ attemptFresh with id := 2, status := .IN_PROGRESS }
        : ExamAttempt).device_session = none
    ∧ sessionA.is_active = true
    ∧ sessionA.attempt_id = 1
    ∧ saveAttempt 100 5 { attemptFresh with id := 2, status := .IN_PROGRESS }
        [sessionA] = .ok [sessionA] :=
  ⟨rfl, rfl, rfl, rfl, rfl⟩

/-- C2 (amended): for an attempt that has a `device_session` bound, any save
with status IN_PROGRESS while another active `ActiveExamSession` for the
same (student, exam) pair is bound to a different attempt is rejected with a
concurrency-violation error naming the conflicting session's start time (the
error return carries no state change, so the other attempt is untouched). -/
theorem C2_concurrency_rejection (now : Int) (tok : Nat) (a : ExamAttempt)
    (sessions : List ActiveExamSession) (hst : a.status = .IN_PROGRESS)
    (hdev : a.device_session.isSome = true)
    (hconf : ∃ s ∈ sessions, conflictsWith a.student a.exam.id a.id s = true) :
    ∃ other ∈ sessions, conflictsWith a.student a.exam.id a.id other = true
      ∧ saveAttempt now tok a sessions =
          .error (.concurrencyViolation other.started_at) := by
  cases hl : sessions.filter (conflictsWith a.student a.exam.id a.id) with
  | nil =>
      exfalso
      obtain ⟨s, hs, hp⟩ := hconf
      have hmem : s ∈ sessions.filter (conflictsWith a.student a.exam.id a.id) :=
        List.mem_filter.mpr ⟨hs, hp⟩
      rw [hl] at hmem
      exact absurd hmem (List.not_mem_nil s)
  | cons o t =>
      have ho : o ∈ sessions.filter (conflictsWith a.student a.exam.id a.id) := by
        rw [hl]
        exact List.mem_cons_self o t
      have homem := List.mem_filter.mp ho
      refine ⟨o, homem.1, homem.2, ?_⟩
      unfold saveAttempt validate_single_device_access ExamAttempt.clean
      simp [hst, hdev, hl, Bind.bind, Except.bind]

/-- Witness for C2: attempt 2 going IN_PROGRESS from device B while
`sessionA` (started at time 0, bound to attempt 1) is active is rejected
with a concurrency violation naming start time 0. -/
theorem C2_concurrency_rejection_witness :
    saveAttempt 100 5 attemptOnDeviceB [sessionA]
      = .error (.concurrencyViolation 0) := by
  obtain ⟨o, ho, -, heq⟩ := C2_concurrency_rejection 100 5 attemptOnDeviceB
    [sessionA] rfl rfl ⟨sessionA, by simp, by decide⟩
  rw [List.mem_singleton] at ho
  subst ho
  exact heq

/-- C3 counterexample: calling `terminate_session` a second time on the
already-terminated attempt (ended at time 0) at time 1 does not reproduce
the state after the first call — `end_time` is re-stamped to 1, so the
second call is not a no-op. -/
theorem C3_counterexample_second_terminate_restamps :
    attemptTerminated.status = .TERMINATED
    ∧ attemptTerminated.end_time = some 0
    ∧ ExamAttempt.terminate_session 1 9 attemptTerminated "policy violation" []
        = .ok ({ attemptTerminated with end_time := some 1 }, [])
    ∧ ({ attemptTerminated with end_time := some 1 } : ExamAttempt)
        ≠ attemptTerminated :=
  ⟨rfl, rfl, rfl, by decide⟩

/-- C3 (amended): a second `terminate_session` on an already-terminated
attempt never raises and leaves the status TERMINATED, but it re-stamps
`end_time` to the time of the second call and overwrites
`termination_reason` with the given reason; in particular it reproduces the
attempt's state exactly when the reason and the timestamp are unchanged. -/
theorem C3_terminate_again_restamps_only (now : Int) (tok : Nat)
    (a : ExamAttempt) (reason : String) (sessions : List ActiveExamSession)
    (h : a.status = .TERMINATED) :
    ((a.terminate_session now tok reason sessions).map Prod.fst =
        .ok { a with
              status := .TERMINATED,
              termination_reason := reason,
              end_time := some now })
    ∧ (a.termination_reason = reason → a.end_time = some now →
        (a.terminate_session now tok reason sessions).map Prod.fst = .ok a) := by
  have main : (a.terminate_session now tok reason sessions).map Prod.fst =
      .ok { a with
            status := .TERMINATED,
            termination_reason := reason,
            end_time := some now } := rfl
  refine ⟨main, fun hr he => ?_⟩
  have hrec : ({ a with
      status := .TERMINATED,
      termination_reason := reason,
      end_time := some now } : ExamAttempt) = a := by
    rcases a with ⟨i, e, st, stt, et, sta, ds, tk, tr, las, asc, pa, lpa⟩
    dsimp only at h hr he
    rw [h, hr, he]
  rw [main, hrec]

/-- Witness for C3: repeating `terminate_session` on `attemptTerminated`
with the same reason at its own `end_time` (time 0) returns the attempt
unchanged and does not raise. -/
theorem C3_terminate_again_restamps_only_witness :
    (ExamAttempt.terminate_session 0 9 attemptTerminated "policy violation"
        []).map Prod.fst = .ok attemptTerminated :=
  (C3_terminate_again_restamps_only 0 9 attemptTerminated "policy violation"
      [] rfl).2 rfl rfl

end TestGuard
